import Mathlib

/-!
Verification development for the Music-Recommendation repository.

The embedding follows the three core modules:
* `src/src/models/similarity.py`   (class `SimilarityComputer`)
* `src/src/models/index_builder.py` (class `IndexBuilder`)
* `src/src/models/recommender.py`  (class `MusicRecommender`)

Numeric values are modelled by `ℚ` (the Python code computes with float64;
all concrete inputs used below stay exact).  Cosine similarity itself
involves a square root, so the similarity function is carried as an explicit
parameter `sim : List ℚ → List ℚ → ℚ` wherever a component only consumes the
resulting score vector; every ranking/filtering claim is then proved for all
such functions, which covers the cosine instance.
-/

namespace MusicRec

/-! ## Similarity engine: `src/src/models/similarity.py` -/

/-- Models `self.feature_weights.get(name, 1.0)`: dictionary lookup with a
default weight of `1.0` for names absent from the weight table. -/
def lookupWeight (weights : List (String × ℚ)) (name : String) : ℚ :=
  match weights with
  | [] => 1
  | (k, v) :: rest => if k = name then v else lookupWeight rest name

/-- Models `SimilarityComputer._get_default_weights`. -/
def getDefaultWeights : List (String × ℚ) :=
  [("danceability", 2), ("energy", 2), ("valence", 2), ("tempo_normalized", 2),
   ("acousticness", 3/2), ("instrumentalness", 3/2), ("loudness_normalized", 1),
   ("speechiness", 1/2), ("liveness", 1/2), ("mode", 3/10), ("key", 3/10),
   ("mood_score", 5/2), ("energy_danceability", 2), ("vocal_presence", 1),
   ("intensity", 3/2), ("chill_factor", 3/2), ("track_age_normalized", 1/2)]

/-- Models `SimilarityComputer.apply_weights`: `feature_matrix * weights`
multiplies each column of the matrix by the weight of the corresponding
feature name (numpy broadcasting over rows). -/
def applyWeights (weights : List (String × ℚ)) (featureMatrix : List (List ℚ))
    (featureNames : List String) : List (List ℚ) :=
  featureMatrix.map (fun row => row.zipWith (· * ·) (featureNames.map (lookupWeight weights)))

/-- `apply_weights` applied to a single vector (the code reshapes to `(1, -1)`
and takes row 0; the arithmetic is the same element-wise product). -/
def applyWeightsVec (weights : List (String × ℚ)) (v : List ℚ)
    (featureNames : List String) : List ℚ :=
  v.zipWith (· * ·) (featureNames.map (lookupWeight weights))

/-- Models the masking step `similarities[exclude_indices] = -1` of
`get_top_k_similar`, keeping each score paired with its row index.
(The guard `if exclude_indices:` skips the assignment for an empty list,
which coincides with this definition since masking by `[]` is a no-op.) -/
def maskPairs (sims : List ℚ) (excl : List Nat) : List (Nat × ℚ) :=
  sims.enum.map (fun p => (p.1, if p.1 ∈ excl then -1 else p.2))

/-- Comparison modelling `np.argsort` on the masked score array: a STABLE
ascending sort of the array is the same as sorting the (index, score) pairs
by score, with ties broken by ascending index.  numpy's default
`kind='quicksort'` (introsort) is NOT stable in general: it is a pure
insertion sort — hence stable — only for arrays below its small-sort cutoff
of 16 elements, and above that the tie order is unspecified.  The model
therefore agrees with numpy exactly on score vectors of length < 16;
statements about tie order are asserted only in that regime, and every
other ranking statement proved below (membership, exclusion, length,
non-increasing scores) is invariant under the order of tied elements. -/
def pairLeP (p q : Nat × ℚ) : Prop :=
  p.2 < q.2 ∨ (p.2 = q.2 ∧ p.1 ≤ q.1)

instance : DecidableRel pairLeP :=
  fun p q => inferInstanceAs (Decidable (p.2 < q.2 ∨ (p.2 = q.2 ∧ p.1 ≤ q.1)))

/-- Python slice `xs[:k]` for an `int` k: a nonnegative `k` keeps the first
`k` elements (clamped to the length), a negative `k` drops the last `|k|`
elements. -/
def pySlice {α : Type} (k : Int) (xs : List α) : List α :=
  if 0 ≤ k then xs.take k.toNat else xs.take (xs.length - (-k).toNat)

/-- Models `SimilarityComputer.get_top_k_similar` from the point where the
score vector `similarities` has been computed:
`top_k_indices = np.argsort(similarities)[::-1][:k]`,
`top_k_scores = similarities[top_k_indices]` (scores are read from the
already-masked array), returned as (row index, score) pairs. -/
def getTopKSimilar (sims : List ℚ) (k : Int) (excl : List Nat) : List (Nat × ℚ) :=
  pySlice k ((List.insertionSort pairLeP (maskPairs sims excl)).reverse)

/-- Models `SimilarityComputer.compute_similarity`: the score of the query
against every row of the matrix.  `sim` stands for
`sklearn.metrics.pairwise.cosine_similarity` on a pair of vectors. -/
def computeSimilarity (sim : List ℚ → List ℚ → ℚ) (query : List ℚ)
    (featureMatrix : List (List ℚ)) : List ℚ :=
  featureMatrix.map (sim query)

/-! ### Ranking lemmas -/

instance : IsTrans (Nat × ℚ) pairLeP := by
  constructor
  intro a b c hab hbc
  rcases hab with h1 | ⟨h1, h1'⟩ <;> rcases hbc with h2 | ⟨h2, h2'⟩
  · exact Or.inl (h1.trans h2)
  · exact Or.inl (h2 ▸ h1)
  · exact Or.inl (h1 ▸ h2)
  · exact Or.inr ⟨h1.trans h2, h1'.trans h2'⟩

instance : IsTotal (Nat × ℚ) pairLeP := by
  constructor
  intro a b
  rcases lt_trichotomy a.2 b.2 with h | h | h
  · exact Or.inl (Or.inl h)
  · rcases Nat.le_total a.1 b.1 with h' | h'
    · exact Or.inl (Or.inr ⟨h, h'⟩)
    · exact Or.inr (Or.inr ⟨h.symm, h'⟩)
  · exact Or.inr (Or.inl h)

theorem maskPairs_length (sims : List ℚ) (excl : List Nat) :
    (maskPairs sims excl).length = sims.length := by
  simp [maskPairs, List.enum_length]

theorem maskPairs_map_fst (sims : List ℚ) (excl : List Nat) :
    (maskPairs sims excl).map Prod.fst = List.range sims.length := by
  unfold maskPairs
  rw [List.map_map]
  have h : (Prod.fst ∘ fun p : Nat × ℚ => (p.1, if p.1 ∈ excl then (-1 : ℚ) else p.2)) =
      Prod.fst := by
    funext p; rfl
  rw [h, List.enum_map_fst]

/-- The ranked list inside `getTopKSimilar` is a permutation of the masked
(index, score) pairs. -/
theorem ranked_perm (sims : List ℚ) (excl : List Nat) :
    ((List.insertionSort pairLeP (maskPairs sims excl)).reverse).Perm
      (maskPairs sims excl) :=
  (List.reverse_perm _).trans (List.perm_insertionSort _ _)

/-- The ranked list is pairwise ordered with the later element below the
earlier one (descending by score, ties by descending index). -/
theorem ranked_pairwise (sims : List ℚ) (excl : List Nat) :
    ((List.insertionSort pairLeP (maskPairs sims excl)).reverse).Pairwise
      (fun a b => pairLeP b a) := by
  have h := List.sorted_insertionSort pairLeP (maskPairs sims excl)
  exact (List.pairwise_reverse).2 h

theorem ranked_fst_nodup (sims : List ℚ) (excl : List Nat) :
    (((List.insertionSort pairLeP (maskPairs sims excl)).reverse).map Prod.fst).Nodup := by
  have hperm : (((List.insertionSort pairLeP (maskPairs sims excl)).reverse).map
      Prod.fst).Perm ((maskPairs sims excl).map Prod.fst) := (ranked_perm sims excl).map Prod.fst
  have h : ((maskPairs sims excl).map Prod.fst).Nodup := by
    rw [maskPairs_map_fst]; exact List.nodup_range _
  exact hperm.nodup_iff.2 h

theorem mem_maskPairs (sims : List ℚ) (excl : List Nat) (p : Nat × ℚ)
    (hp : p ∈ maskPairs sims excl) :
    p.1 < sims.length ∧ (p.1 ∈ excl → p.2 = -1) := by
  unfold maskPairs at hp
  rcases List.mem_map.1 hp with ⟨q, hq, hpq⟩
  have hq2 : sims[q.1]? = some q.2 := List.mem_enum_iff_getElem?.1 hq
  have hlen : q.1 < sims.length := by
    by_contra h
    rw [List.getElem?_eq_none (Nat.le_of_not_lt h)] at hq2
    exact Option.noConfusion hq2
  subst hpq
  refine ⟨hlen, fun hmem => ?_⟩
  simp [hmem]

theorem maskPairs_countP (sims : List ℚ) (excl : List Nat) :
    (maskPairs sims excl).countP (fun p => decide (-1 < p.2)) =
      sims.enum.countP (fun q => decide (q.1 ∉ excl ∧ -1 < q.2)) := by
  unfold maskPairs
  rw [List.countP_map]
  congr 1
  funext q
  by_cases h : q.1 ∈ excl <;> simp [h, Function.comp]

/-- In a pair list with non-increasing scores, if at least `min m length`
entries score strictly above `c`, then the first `m` entries all do. -/
theorem take_score_gt_of_countP {c : ℚ} :
    ∀ (l : List (Nat × ℚ)) (m : Nat),
      l.Pairwise (fun a b => b.2 ≤ a.2) →
      min m l.length ≤ l.countP (fun p => decide (c < p.2)) →
      ∀ p ∈ l.take m, c < p.2 := by
  intro l
  induction l with
  | nil => intro m _ _ p hp; simp at hp
  | cons x t ih =>
    intro m hpw hcnt p hp
    rcases List.pairwise_cons.1 hpw with ⟨hx, ht⟩
    cases m with
    | zero => simp at hp
    | succ m =>
      by_cases hcx : c < x.2
      · have hcnt' : min m t.length ≤ t.countP (fun p => decide (c < p.2)) := by
          rw [List.countP_cons] at hcnt
          simp only [List.length_cons, decide_eq_true_eq, if_pos hcx] at hcnt
          omega
        rw [List.take_succ_cons] at hp
        rcases List.mem_cons.1 hp with h | h
        · exact h ▸ hcx
        · exact ih m ht hcnt' p h
      · exfalso
        have h0 : t.countP (fun p => decide (c < p.2)) = 0 := by
          refine List.countP_eq_zero.2 (fun a ha => ?_)
          have := hx a ha
          simp only [decide_eq_true_eq]
          intro hca
          exact hcx (lt_of_lt_of_le hca this)
        rw [List.countP_cons] at hcnt
        simp only [List.length_cons, decide_eq_true_eq, if_neg hcx, h0] at hcnt
        omega

theorem ranked_pairwise_scores (sims : List ℚ) (excl : List Nat) :
    ((List.insertionSort pairLeP (maskPairs sims excl)).reverse).Pairwise
      (fun a b : Nat × ℚ => b.2 ≤ a.2) := by
  refine (ranked_pairwise sims excl).imp ?_
  intro a b hab
  rcases hab with h | ⟨h, _⟩
  · exact le_of_lt h
  · exact le_of_eq h

theorem pySlice_sublist {α : Type} (k : Int) (xs : List α) :
    (pySlice k xs).Sublist xs := by
  unfold pySlice
  split <;> exact List.take_sublist _ _

theorem topK_subset_ranked (sims : List ℚ) (k : Int) (excl : List Nat) :
    ∀ p ∈ getTopKSimilar sims k excl,
      p ∈ (List.insertionSort pairLeP (maskPairs sims excl)).reverse := by
  intro p hp
  exact (pySlice_sublist k _).subset hp

/-- Core exclusion lemma, shared by the C1 and C2 developments: when at least
`min k catalog_size` non-excluded rows score strictly above -1, every
returned pair has a non-excluded row index. -/
theorem topK_excluded_core (sims : List ℚ) (k : Int) (excl : List Nat)
    (hk : 0 ≤ k)
    (hcount : min k.toNat sims.length ≤
      sims.enum.countP (fun q => decide (q.1 ∉ excl ∧ -1 < q.2))) :
    ∀ p ∈ getTopKSimilar sims k excl, p.1 ∉ excl := by
  intro p hp hmem
  set ranked := (List.insertionSort pairLeP (maskPairs sims excl)).reverse with hranked
  have hlen : ranked.length = sims.length := by
    rw [hranked, List.length_reverse, List.length_insertionSort, maskPairs_length]
  have hcnt : ranked.countP (fun p => decide (-1 < p.2)) =
      sims.enum.countP (fun q => decide (q.1 ∉ excl ∧ -1 < q.2)) := by
    rw [(ranked_perm sims excl).countP_eq (fun p => decide (-1 < p.2)),
      maskPairs_countP]
  have hp' : p ∈ ranked.take k.toNat := by
    unfold getTopKSimilar pySlice at hp
    rw [if_pos hk] at hp
    exact hp
  have hgt : -1 < p.2 := by
    refine take_score_gt_of_countP ranked k.toNat (ranked_pairwise_scores sims excl) ?_ p hp'
    rw [hlen, hcnt]
    exact hcount
  have hmask : p ∈ maskPairs sims excl :=
    (ranked_perm sims excl).subset ((List.take_subset _ _) hp')
  have hneg : p.2 = -1 := (mem_maskPairs sims excl p hmask).2 hmem
  rw [hneg] at hgt
  exact lt_irrefl _ hgt

theorem topK_index_lt (sims : List ℚ) (k : Int) (excl : List Nat) :
    ∀ p ∈ getTopKSimilar sims k excl, p.1 < sims.length := by
  intro p hp
  have h2 : p ∈ maskPairs sims excl :=
    (ranked_perm sims excl).subset (topK_subset_ranked sims k excl p hp)
  exact (mem_maskPairs sims excl p h2).1

/-! ### Claim C1 -/

/-- C1 (amended): a row listed in `exclude_indices` is forced to similarity
-1; it never appears among the pairs returned by `get_top_k_similar`
provided at least `min k catalog_size` non-excluded rows score strictly
above -1.  (As stated the claim is false: when `k` reaches past the rows
scoring above -1, excluded rows fill the tail of the output.) -/
theorem topK_excluded_absent (sims : List ℚ) (k : Int) (excl : List Nat)
    (hk : 0 ≤ k)
    (hcount : min k.toNat sims.length ≤
      sims.enum.countP (fun q => decide (q.1 ∉ excl ∧ -1 < q.2))) :
    ∀ p ∈ getTopKSimilar sims k excl, p.1 ∉ excl :=
  topK_excluded_core sims k excl hk hcount

/-- Witness for `topK_excluded_absent` at `sims = [1, 0]`, `k = 1`,
`exclude = [1]`. -/
theorem topK_excluded_absent_witness :
    (0 : Int) ≤ 1 ∧
    (min (1 : Int).toNat [(1 : ℚ), 0].length ≤
      [(1 : ℚ), 0].enum.countP (fun q => decide (q.1 ∉ [1] ∧ -1 < q.2))) ∧
    ∀ p ∈ getTopKSimilar [1, 0] 1 [1], p.1 ∉ [1] :=
  ⟨by decide, by decide, topK_excluded_absent [1, 0] 1 [1] (by decide) (by decide)⟩

/-- C1 counterexample: with a one-row catalog, excluding row 0 and requesting
`k = 1` still returns row 0, with its score forced to -1 — the excluded row
is not absent from the output. -/
theorem topK_excluded_present_cex :
    getTopKSimilar [1] 1 [0] = [(0, -1)] ∧ (0 : Nat) ∈ [0] := by
  exact ⟨by decide, by decide⟩

/-! ### Claim C6 -/

/-- C6 counterexample: two rows with equal scores (e.g. identical feature
vectors, cosine 1 each) come back as [(1, 1), (0, 1)]: row index 1 before
row index 0, so equal-scoring rows are NOT in ascending row-index order.
(A 2-element array is well inside numpy's insertion-sort regime, so the
stable model traces the real argsort exactly here.) -/
theorem topK_ties_ascending_cex :
    getTopKSimilar [1, 1] 2 [] = [(1, 1), (0, 1)] ∧
    ¬ (getTopKSimilar [1, 1] 2 []).Pairwise (fun a b => a.2 = b.2 → a.1 < b.1) := by
  exact ⟨by decide, by decide⟩

/-- C6 (amended): no tie order is guaranteed in general — numpy's default
argsort is unstable above its 16-element insertion-sort cutoff, so for large
catalogs the order of equal-scoring rows is unspecified (in particular not
the claim's ascending order).  In the small-array regime (score vector
shorter than 16 entries), where numpy's argsort IS a stable insertion sort
and the model is exact, equal-scoring rows appear in DESCENDING row-index
order: the `[::-1]` reversal turns the stable ascending tie order into a
descending one. -/
theorem topK_ties_descending (sims : List ℚ) (k : Int) (excl : List Nat)
    (hlen : sims.length < 16) :
    (getTopKSimilar sims k excl).Pairwise (fun a b => a.2 = b.2 → b.1 < a.1) := by
  have h1 := ranked_pairwise sims excl
  have h2 : ((List.insertionSort pairLeP (maskPairs sims excl)).reverse).Pairwise
      (fun a b : Nat × ℚ => a.1 ≠ b.1) :=
    List.pairwise_map.1 (ranked_fst_nodup sims excl)
  have h3 : ((List.insertionSort pairLeP (maskPairs sims excl)).reverse).Pairwise
      (fun a b : Nat × ℚ => a.2 = b.2 → b.1 < a.1) := by
    refine (h1.and h2).imp ?_
    intro a b hab heq
    rcases hab with ⟨hle, hne⟩
    rcases hle with h | ⟨_, hidx⟩
    · rw [heq] at h
      exact absurd h (lt_irrefl _)
    · exact lt_of_le_of_ne hidx (fun h => hne h.symm)
  exact List.Pairwise.sublist (pySlice_sublist k _) h3

/-- Witness for `topK_ties_descending` at a concrete tied input inside the
stable (length < 16) regime. -/
theorem topK_ties_descending_witness :
    ([(1 : ℚ), 1, 0]).length < 16 ∧
    (getTopKSimilar [1, 1, 0] 3 []).Pairwise (fun a b => a.2 = b.2 → b.1 < a.1) :=
  ⟨by decide, topK_ties_descending [1, 1, 0] 3 [] (by decide)⟩

/-! ### Claim C7 -/

/-- Length of a Python slice `xs[:k]`. -/
def pySliceLen (k : Int) (n : Nat) : Nat :=
  if 0 ≤ k then min k.toNat n else n - (-k).toNat

/-- C7 (amended): for `k ≥ 0`, `get_top_k_similar` returns exactly
`min(k, catalog_size)` entries sorted by non-increasing score; for `k < 0`
Python slicing instead drops the last `|k|` entries (so a negative `k` does
not generally return an empty sequence). -/
theorem topK_length_and_sorted (sims : List ℚ) (k : Int) (excl : List Nat) :
    (getTopKSimilar sims k excl).length = pySliceLen k sims.length ∧
    (getTopKSimilar sims k excl).Pairwise (fun a b : Nat × ℚ => b.2 ≤ a.2) := by
  constructor
  · have hlen : ((List.insertionSort pairLeP (maskPairs sims excl)).reverse).length =
        sims.length := by
      rw [List.length_reverse, List.length_insertionSort, maskPairs_length]
    unfold getTopKSimilar pySlice pySliceLen
    split
    · rw [List.length_take, hlen]
    · rw [List.length_take, hlen]
      omega
  · exact List.Pairwise.sublist (pySlice_sublist k _) (ranked_pairwise_scores sims excl)

/-- C7 counterexample: `k = -1` on a two-row catalog returns one entry, not
the empty sequence the claim requires for all `k ≤ 0`. -/
theorem topK_negative_k_cex :
    getTopKSimilar [0, 0] (-1) [] = [(1, 0)] ∧ getTopKSimilar [0, 0] (-1) [] ≠ [] := by
  exact ⟨by decide, by decide⟩

/-! ## Recommendation orchestrator: `src/src/models/recommender.py` -/

/-- One row of the parallel metadata table `self.df` (columns actually read
by `get_recommendations`). -/
structure Track where
  id : String
  name : String
  artists : String
  popularity : Int
  releaseYear : Option Int
  danceability : ℚ
  energy : ℚ
  valence : ℚ
  tempo : ℚ
deriving DecidableEq

/-- Row used when an index is out of range; under the alignment invariant
(`df` has one row per matrix row) it is never reached. -/
def defaultTrack : Track :=
  ⟨"", "Unknown", "Unknown", 0, none, 0, 0, 0, 0⟩

/-- The dictionary appended by `get_recommendations`. -/
structure RecEntry where
  id : String
  name : String
  artists : String
  popularity : Int
  releaseYear : Option Int
  similarityScore : ℚ
  danceability : ℚ
  energy : ℚ
  valence : ℚ
  tempo : ℚ
deriving DecidableEq

def mkRecEntry (t : Track) (score : ℚ) : RecEntry :=
  ⟨t.id, t.name, t.artists, t.popularity, t.releaseYear, score,
    t.danceability, t.energy, t.valence, t.tempo⟩

/-- Models `if min_popularity and track_data.get('popularity', 0) < min_popularity`:
Python truthiness makes both `None` and `0` skip the filter. -/
def popSkip (minPop : Option Int) (pop : Int) : Bool :=
  match minPop with
  | none => false
  | some p => decide (p ≠ 0) && decide (pop < p)

/-- Models the year filter: `if year_range:` (a tuple is always truthy),
dropping rows whose `release_year` is missing or outside `[low, high]`. -/
def yearSkip (yearRange : Option (Int × Int)) (year : Option Int) : Bool :=
  match yearRange with
  | none => false
  | some (lo, hi) =>
    match year with
    | none => true
    | some y => decide (y < lo) || decide (hi < y)

/-- Models the candidate walk of `get_recommendations` (the
`for idx, score in zip(...)` loop): filters in source order (popularity,
year, artist de-duplication), appends the surviving candidate, and breaks
once `n` recommendations are collected.  `count` is the number collected so
far (`len(recommendations)`). -/
def recLoop (df : List Track) (n : Nat) (diversity : Bool)
    (minPop : Option Int) (yearRange : Option (Int × Int)) :
    List (Nat × ℚ) → List String → Nat → List RecEntry
  | [], _, _ => []
  | (idx, score) :: rest, seenArtists, count =>
    let t := df.getD idx defaultTrack
    if popSkip minPop t.popularity then
      recLoop df n diversity minPop yearRange rest seenArtists count
    else if yearSkip yearRange t.releaseYear then
      recLoop df n diversity minPop yearRange rest seenArtists count
    else if diversity && decide (t.artists ∈ seenArtists) then
      recLoop df n diversity minPop yearRange rest seenArtists count
    else
      let seenArtists' := if diversity then t.artists :: seenArtists else seenArtists
      if n ≤ count + 1 then [mkRecEntry t score]
      else mkRecEntry t score :: recLoop df n diversity minPop yearRange rest seenArtists' (count + 1)

/-- Models `MusicRecommender.get_recommendations`.  State of the loaded
recommender: `sim` (cosine similarity of two vectors, carried abstractly),
`weightedMatrix` (`self.weighted_feature_matrix`, one row per track), `df`
(the metadata table, row-aligned with the matrix), and `idToIdx`
(`self.track_index['id_to_idx']`). -/
def getRecommendations (sim : List ℚ → List ℚ → ℚ)
    (weightedMatrix : List (List ℚ)) (df : List Track)
    (idToIdx : String → Option Nat)
    (trackId : String) (n : Nat) (diversity : Bool)
    (minPop : Option Int) (yearRange : Option (Int × Int)) :
    Except String (List RecEntry) :=
  match idToIdx trackId with
  | none => Except.error "Track ID not found in index"
  | some trackIdx =>
    let queryVector := weightedMatrix.getD trackIdx []
    let k : Nat := if diversity then n * 5 else n
    let cands := getTopKSimilar (computeSimilarity sim queryVector weightedMatrix)
      (Int.ofNat (min k weightedMatrix.length)) [trackIdx]
    Except.ok (recLoop df n diversity minPop yearRange cands [] 0)

/-! ### Claim C10 -/

theorem popSkip_some_zero (pop : Int) : popSkip (some 0) pop = popSkip none pop := by
  simp [popSkip]

theorem recLoop_minPop_zero (df : List Track) (n : Nat) (diversity : Bool)
    (yearRange : Option (Int × Int)) :
    ∀ (cands : List (Nat × ℚ)) (seen : List String) (count : Nat),
      recLoop df n diversity (some 0) yearRange cands seen count =
      recLoop df n diversity none yearRange cands seen count := by
  intro cands
  induction cands with
  | nil => intro seen count; rfl
  | cons c rest ih =>
    intro seen count
    obtain ⟨idx, score⟩ := c
    simp only [recLoop, popSkip_some_zero]
    by_cases h2 : yearSkip yearRange (df.getD idx defaultTrack).releaseYear <;>
      by_cases h3 : (diversity && decide ((df.getD idx defaultTrack).artists ∈ seen)) = true <;>
      by_cases h4 : n ≤ count + 1 <;>
      simp [popSkip, h2, h3, h4, ih]

/-- C10 (confirmed): `min_popularity = 0` is falsy in Python
(`if min_popularity and ...`), so passing 0 applies no popularity filter at
all — the output of `get_recommendations` is identical to the
`min_popularity = None` output, for every seed, catalog and parameters. -/
theorem minPopularity_zero_eq_none (sim : List ℚ → List ℚ → ℚ)
    (weightedMatrix : List (List ℚ)) (df : List Track)
    (idToIdx : String → Option Nat) (trackId : String) (n : Nat)
    (diversity : Bool) (yearRange : Option (Int × Int)) :
    getRecommendations sim weightedMatrix df idToIdx trackId n diversity (some 0) yearRange =
    getRecommendations sim weightedMatrix df idToIdx trackId n diversity none yearRange := by
  unfold getRecommendations
  cases hidx : idToIdx trackId with
  | none => rfl
  | some trackIdx =>
    exact congrArg Except.ok (recLoop_minPop_zero df n diversity yearRange _ [] 0)

/-! ### Claim C8 -/

theorem recLoop_artists_distinct (df : List Track) (n : Nat)
    (minPop : Option Int) (yearRange : Option (Int × Int)) :
    ∀ (cands : List (Nat × ℚ)) (seen : List String) (count : Nat),
      (recLoop df n true minPop yearRange cands seen count).Pairwise
        (fun a b => a.artists ≠ b.artists) ∧
      ∀ r ∈ recLoop df n true minPop yearRange cands seen count, r.artists ∉ seen := by
  intro cands
  induction cands with
  | nil =>
    intro seen count
    refine ⟨List.Pairwise.nil, ?_⟩
    intro r hr
    simp only [recLoop] at hr
    exact absurd hr (List.not_mem_nil r)
  | cons c rest ih =>
    intro cseen ccount
    obtain ⟨idx, score⟩ := c
    simp only [recLoop]
    by_cases h1 : popSkip minPop (df.getD idx defaultTrack).popularity = true
    · rw [if_pos h1]
      exact ih cseen ccount
    rw [if_neg h1]
    by_cases h2 : yearSkip yearRange (df.getD idx defaultTrack).releaseYear = true
    · rw [if_pos h2]
      exact ih cseen ccount
    rw [if_neg h2]
    by_cases h3 : (df.getD idx defaultTrack).artists ∈ cseen
    · rw [if_pos (by simpa using h3)]
      exact ih cseen ccount
    rw [if_neg (by simpa using h3)]
    by_cases h4 : n ≤ ccount + 1
    · rw [if_pos h4]
      refine ⟨List.pairwise_singleton _ _, ?_⟩
      intro r hr
      rw [List.mem_singleton.1 hr]
      exact h3
    · rw [if_neg h4]
      obtain ⟨ihp, ihs⟩ := ih ((df.getD idx defaultTrack).artists :: cseen) (ccount + 1)
      constructor
      · refine List.pairwise_cons.2 ⟨?_, ihp⟩
        intro r hr heq
        exact (ihs r hr) (by rw [← heq]; exact List.mem_cons_self _ _)
      · intro r hr
        rcases List.mem_cons.1 hr with h | h
        · rw [h]
          exact h3
        · exact fun hmem => (ihs r h) (List.mem_cons_of_mem _ hmem)

/-- C8 (confirmed): `recommend_by_seed` with `diversity_filter=True` never
returns two recommendations sharing the same artist string — the artist
de-duplication filter keeps at most one track per distinct artist string
across the whole result. -/
theorem diversity_distinct_artists (sim : List ℚ → List ℚ → ℚ)
    (weightedMatrix : List (List ℚ)) (df : List Track)
    (idToIdx : String → Option Nat) (trackId : String) (n : Nat)
    (minPop : Option Int) (yearRange : Option (Int × Int)) (recs : List RecEntry)
    (h : getRecommendations sim weightedMatrix df idToIdx trackId n true minPop yearRange =
      Except.ok recs) :
    recs.Pairwise (fun a b => a.artists ≠ b.artists) := by
  unfold getRecommendations at h
  cases hidx : idToIdx trackId with
  | none => rw [hidx] at h; exact absurd h (by simp)
  | some trackIdx =>
    rw [hidx] at h
    injection h with h
    rw [← h]
    exact (recLoop_artists_distinct df n minPop yearRange _ [] 0).1

/-- Catalog used for the recommender witnesses: three tracks, the last two
sharing artist "Y", all with identical feature rows. -/
def wDf : List Track :=
  [⟨"a", "A", "X", 10, some 2000, 1, 0, 0, 0⟩,
   ⟨"b", "B", "Y", 20, some 2001, 1, 0, 0, 0⟩,
   ⟨"c", "C", "Y", 30, some 2002, 1, 0, 0, 0⟩]

def wMatrix : List (List ℚ) := [[1, 0], [1, 0], [1, 0]]

def wIdToIdx : String → Option Nat :=
  fun s =>
    if s = "a" then some 0 else if s = "b" then some 1 else
    if s = "c" then some 2 else none

/-- Cosine similarity evaluated on this catalog: every row equals the query
row `[1, 0]`, so every score is 1. -/
def wSim : List ℚ → List ℚ → ℚ := fun _ _ => 1

/-- Witness for `diversity_distinct_artists`: a concrete run returning two
recommendations with distinct artist strings. -/
theorem diversity_distinct_artists_witness :
    getRecommendations wSim wMatrix wDf wIdToIdx "a" 2 true none none =
      Except.ok [mkRecEntry (wDf.getD 2 defaultTrack) 1,
        mkRecEntry (wDf.getD 0 defaultTrack) (-1)] ∧
    ([mkRecEntry (wDf.getD 2 defaultTrack) 1,
      mkRecEntry (wDf.getD 0 defaultTrack) (-1)]).Pairwise
      (fun a b => a.artists ≠ b.artists) :=
  ⟨rfl, diversity_distinct_artists wSim wMatrix wDf wIdToIdx "a" 2 none none _ rfl⟩

/-! ### Claim C2 -/

/-- Two-track catalog with identical feature rows (cosine similarity 1
between any two rows). -/
def cDf : List Track :=
  [⟨"a", "A", "X", 10, some 2000, 1, 0, 0, 0⟩,
   ⟨"b", "B", "Y", 20, some 2001, 1, 0, 0, 0⟩]

def cMatrix : List (List ℚ) := [[1, 0], [1, 0]]

def cIdToIdx : String → Option Nat :=
  fun s => if s = "a" then some 0 else if s = "b" then some 1 else none

/-- C2 failing input: catalog of 2 tracks with identical feature vectors,
seed "a", `n = 2`, `diversity_filter = False`, no other filters.  The
requested `k = min(2, 2) = 2` spans the whole catalog, so the seed row —
down-ranked to score -1 but never removed — is the last candidate, survives
all filters, and is returned: the recommendation list ends with the seed
track itself. -/
theorem seed_returned_bug :
    getRecommendations wSim cMatrix cDf cIdToIdx "a" 2 false none none =
      Except.ok [mkRecEntry (cDf.getD 1 defaultTrack) 1,
        mkRecEntry (cDf.getD 0 defaultTrack) (-1)] ∧
    (mkRecEntry (cDf.getD 0 defaultTrack) (-1)).id = "a" := by
  exact ⟨rfl, rfl⟩

/-! ### Claim C9 -/

theorem zipWith_zipWith_right {α β γ δ : Type} (f : γ → β → δ) (g : α → β → γ) :
    ∀ (a : List α) (b : List β),
      List.zipWith f (List.zipWith g a b) b = List.zipWith (fun x y => f (g x y) y) a b := by
  intro a
  induction a with
  | nil => intro b; rfl
  | cons x xs ih =>
    intro b
    cases b with
    | nil => rfl
    | cons y ys => simp only [List.zipWith, ih]

/-- C9 (confirmed): `apply_weights` is a pure element-wise scalar transform:
applied twice with the same weight table it multiplies each entry by the
square of its column's weight, and a feature name absent from the weight
table has weight 1.0. -/
theorem applyWeights_twice (weights : List (String × ℚ))
    (featureMatrix : List (List ℚ)) (featureNames : List String)
    (hshape : ∀ row ∈ featureMatrix, row.length = featureNames.length) :
    applyWeights weights (applyWeights weights featureMatrix featureNames) featureNames =
      featureMatrix.map (fun row =>
        row.zipWith (fun x w => x * w ^ 2) (featureNames.map (lookupWeight weights))) ∧
    ∀ name, (∀ p ∈ weights, p.1 ≠ name) → lookupWeight weights name = 1 := by
  constructor
  · unfold applyWeights
    rw [List.map_map]
    refine List.map_congr_left ?_
    intro row _
    show List.zipWith (· * ·)
        (List.zipWith (· * ·) row (featureNames.map (lookupWeight weights)))
        (featureNames.map (lookupWeight weights)) = _
    rw [zipWith_zipWith_right]
    have hfun : (fun (x y : ℚ) => x * y * y) = (fun x y => x * y ^ 2) := by
      funext x y
      ring
    rw [hfun]
  · intro name h
    induction weights with
    | nil => rfl
    | cons p rest ih =>
      rw [lookupWeight, if_neg (h p (List.mem_cons_self p rest))]
      exact ih (fun q hq => h q (List.mem_cons_of_mem p hq))

/-- Witness for `applyWeights_twice` on a concrete 1×2 matrix with one
weighted and one unweighted feature name. -/
theorem applyWeights_twice_witness :
    (∀ row ∈ [[(1 : ℚ), 5]], row.length = ["danceability", "zzz"].length) ∧
    (applyWeights getDefaultWeights
        (applyWeights getDefaultWeights [[(1 : ℚ), 5]] ["danceability", "zzz"])
        ["danceability", "zzz"] =
      [[(1 : ℚ), 5]].map (fun row =>
        row.zipWith (fun x w => x * w ^ 2)
          (["danceability", "zzz"].map (lookupWeight getDefaultWeights))) ∧
     ∀ name, (∀ p ∈ getDefaultWeights, p.1 ≠ name) →
       lookupWeight getDefaultWeights name = 1) :=
  ⟨by decide, applyWeights_twice getDefaultWeights [[(1 : ℚ), 5]] ["danceability", "zzz"]
    (by decide)⟩

/-! ## Feature index: `src/src/models/index_builder.py` -/

/-- The deserialized contents of `track_index.json` (the `track_metadata`
sub-dictionary is not read by any of the claims and is omitted). -/
structure TrackIndexData where
  idToIdx : List (String × Nat)
  idxToId : List (Nat × String)
deriving DecidableEq

/-- The deserialized contents of `model_config.json`. -/
structure ModelConfig where
  featureColumns : List String
  nTracks : Nat
  nFeatures : Nat
  scalerMean : List ℚ
  scalerScale : List ℚ
deriving DecidableEq

/-- The three co-located persisted artifacts, already deserialized (file-level
I/O failures are outside the model). -/
structure IndexArtifacts where
  featureMatrix : List (List ℚ)
  trackIndex : TrackIndexData
  config : ModelConfig
deriving DecidableEq

/-- Models `IndexBuilder.load_index`: reads the three artifacts and returns
them.  The function body performs NO mutual-consistency validation — no
row-count/id-index comparison, no statistics-length check; no
`IndexCorruptError` (or any similar exception class) exists anywhere in the
repository. -/
def loadIndex (a : IndexArtifacts) :
    Except String (List (List ℚ) × TrackIndexData × ModelConfig) :=
  Except.ok (a.featureMatrix, a.trackIndex, a.config)

/-- C4 (amended): `load_index` returns the loaded matrix, id index and
configuration unconditionally; it never checks the matrix row count against
the id-index size nor the statistics length against the feature-column
count, and it can never fail with the `IndexCorruptError` the claim
describes (no such error exists in the code). -/
theorem loadIndex_no_validation (a : IndexArtifacts) :
    loadIndex a = Except.ok (a.featureMatrix, a.trackIndex, a.config) := rfl

/-- Mutually inconsistent artifacts: a 2-row matrix with a 1-entry id index,
and a 1-entry statistics vector against 2 declared feature columns. -/
def corruptArtifacts : IndexArtifacts :=
  ⟨[[0, 0], [0, 0]], ⟨[("a", 0)], [(0, "a")]⟩, ⟨["x", "y"], 2, 2, [0], [1]⟩⟩

/-- C4 counterexample: on artifacts whose matrix row count (2) disagrees
with the id-index size (1) and whose statistics length (1) disagrees with
the feature-column count (2), `load_index` succeeds instead of failing. -/
theorem loadIndex_corrupt_cex :
    corruptArtifacts.featureMatrix.length = 2 ∧
    corruptArtifacts.trackIndex.idToIdx.length = 1 ∧
    corruptArtifacts.config.scalerMean.length = 1 ∧
    corruptArtifacts.config.featureColumns.length = 2 ∧
    loadIndex corruptArtifacts =
      Except.ok (corruptArtifacts.featureMatrix, corruptArtifacts.trackIndex,
        corruptArtifacts.config) :=
  ⟨rfl, rfl, rfl, rfl, rfl⟩

/-- A pandas data frame as consumed by `build_index`: the `id` column plus
the numeric columns, each a name paired with its per-row values (`none`
models NaN). -/
structure PyDataFrame where
  ids : List String
  cols : List (String × List (Option ℚ))

/-- Column lookup by name (pandas column access; `none` models the
`KeyError` raised for a missing column). -/
def findCol (cols : List (String × List (Option ℚ))) (name : String) :
    Option (List (Option ℚ)) :=
  match cols with
  | [] => none
  | (k, v) :: rest => if k = name then some v else findCol rest name

/-- Select the named columns in order; `none` as soon as one is absent. -/
def selectCols (cols : List (String × List (Option ℚ))) :
    List String → Option (List (List (Option ℚ)))
  | [] => some []
  | nm :: rest =>
    match findCol cols nm, selectCols cols rest with
    | some c, some cs => some (c :: cs)
    | _, _ => none

/-- Models `df[feature_columns].values`: selects the named columns
(KeyError when one is absent) and lays the result out row-major: row `i`
holds the `i`-th entry of each selected column. -/
def dfSelect (df : PyDataFrame) (names : List String) :
    Except String (List (List (Option ℚ))) :=
  match selectCols df.cols names with
  | none => Except.error "KeyError"
  | some colVals =>
    Except.ok ((List.range df.ids.length).map (fun i => colVals.map (fun c => c.getD i none)))

/-- Models `np.nan_to_num(feature_matrix, nan=0.0)`. -/
def nanToNum (m : List (List (Option ℚ))) : List (List ℚ) :=
  m.map (fun row => row.map (fun v => v.getD 0))

def colMean (xs : List ℚ) : ℚ := xs.sum / (xs.length : ℚ)

/-- Population variance, as used by `StandardScaler` (ddof = 0). -/
def colVar (xs : List ℚ) : ℚ :=
  ((xs.map (fun x => (x - colMean xs) ^ 2)).sum) / (xs.length : ℚ)

/-- Column `j` of a row-major matrix. -/
def matrixCol (m : List (List ℚ)) (j : Nat) : List ℚ :=
  m.map (fun row => row.getD j 0)

/-- Models the `StandardScaler.fit` statistics: per-column mean and
population variance.  `sklearn.utils.check_array` rejects inputs with zero
samples or zero features (`ValueError`), which is how a zero-row catalog
aborts `build_index`. -/
def scalerFit (m : List (List ℚ)) (nFeatures : Nat) :
    Except String (List ℚ × List ℚ) :=
  if m.length = 0 then Except.error "ValueError: 0 samples"
  else if nFeatures = 0 then Except.error "ValueError: 0 features"
  else Except.ok ((List.range nFeatures).map (fun j => colMean (matrixCol m j)),
    (List.range nFeatures).map (fun j => colVar (matrixCol m j)))

/-- Element-wise `(x - mean) / scale` over a vector: the scaler transform,
also used on the query vector of `get_recommendations_by_features`. -/
def standardizeVec (v mean scale : List ℚ) : List ℚ :=
  (v.zip (mean.zip scale)).map (fun p => (p.1 - p.2.1) / p.2.2)

/-- `StandardScaler.transform` on a whole matrix. -/
def normalizeWith (m : List (List ℚ)) (mean scale : List ℚ) : List (List ℚ) :=
  m.map (fun row => standardizeVec row mean scale)

/-- A valid `scale_` vector for fitted variances: `scale_ = sqrt(var_)` with
sklearn's zero guard (`_handle_zeros_in_scale` turns a zero into 1).  The
square root is irrational in general, so it is characterized by its square
rather than computed. -/
def ScaleOk (vars scale : List ℚ) : Prop :=
  scale.length = vars.length ∧
  ∀ j, j < vars.length →
    0 ≤ scale.getD j 0 ∧
    scale.getD j 0 ^ 2 = (if vars.getD j 0 = 0 then 1 else vars.getD j 0)

/-- The state `build_index` produces: the imputed (NaN→0) matrix together
with the fitted per-column statistics, plus the id-index mappings built from
`enumerate(df['id'])`.  The standardized matrix the source returns is
`normalizeWith imputedMatrix scalerMean scale` for any `scale` with
`ScaleOk scalerVar scale`. -/
structure BuiltIndex where
  imputedMatrix : List (List ℚ)
  scalerMean : List ℚ
  scalerVar : List ℚ
  idToIdx : List (String × Nat)
  idxToId : List (Nat × String)
deriving DecidableEq

/-- Models `IndexBuilder.build_index`: select the feature columns (KeyError
when one is missing, checked before anything else), impute NaN to 0.0, then
fit the scaler (ValueError on a zero-row or zero-feature array). -/
def buildIndex (df : PyDataFrame) (featureColumns : List String) :
    Except String BuiltIndex :=
  match dfSelect df featureColumns with
  | Except.error e => Except.error e
  | Except.ok sel =>
    match scalerFit (nanToNum sel) featureColumns.length with
    | Except.error e => Except.error e
    | Except.ok (means, vars) =>
      Except.ok ⟨nanToNum sel, means, vars,
        df.ids.enum.map (fun p => (p.2, p.1)), df.ids.enum⟩

/-! ### Claim C5 -/

theorem selectCols_none_of_missing (cols : List (String × List (Option ℚ))) :
    ∀ names, (∃ c ∈ names, findCol cols c = none) → selectCols cols names = none := by
  intro names
  induction names with
  | nil =>
    rintro ⟨c, hc, _⟩
    exact absurd hc (List.not_mem_nil c)
  | cons nm rest ih =>
    rintro ⟨c, hc, hfind⟩
    rcases List.mem_cons.1 hc with h | h
    · subst h
      simp only [selectCols, hfind]
    · have hrest := ih ⟨c, h, hfind⟩
      simp only [selectCols, hrest]
      cases findCol cols nm <;> rfl

theorem selectCols_some_of_present (cols : List (String × List (Option ℚ))) :
    ∀ names, (∀ c ∈ names, findCol cols c ≠ none) →
      ∃ colVals, selectCols cols names = some colVals := by
  intro names
  induction names with
  | nil => exact fun _ => ⟨[], rfl⟩
  | cons nm rest ih =>
    intro h
    rcases ih (fun c hc => h c (List.mem_cons_of_mem nm hc)) with ⟨cs, hcs⟩
    rcases hnm : findCol cols nm with _ | c
    · exact absurd hnm (h nm (List.mem_cons_self nm rest))
    · exact ⟨c :: cs, by simp only [selectCols, hnm, hcs]⟩

theorem selectCols_some_spec (cols : List (String × List (Option ℚ))) :
    ∀ names colVals, selectCols cols names = some colVals →
      colVals.length = names.length ∧
      ∀ j, (hj : j < names.length) →
        findCol cols (names.get ⟨j, hj⟩) = some (colVals.getD j []) := by
  intro names
  induction names with
  | nil =>
    intro colVals h
    simp only [selectCols] at h
    injection h with h
    subst h
    exact ⟨rfl, fun j hj => absurd hj (Nat.not_lt_zero j)⟩
  | cons nm rest ih =>
    intro colVals h
    simp only [selectCols] at h
    rcases hnm : findCol cols nm with _ | c <;> rw [hnm] at h
    · cases hrest : selectCols cols rest <;> rw [hrest] at h <;>
        exact Option.noConfusion h
    · cases hrest : selectCols cols rest <;> rw [hrest] at h
      · exact Option.noConfusion h
      · rename_i cs
        injection h with h
        subst h
        rcases ih cs hrest with ⟨hlen, hget⟩
        refine ⟨by simp [hlen], ?_⟩
        intro j hj
        cases j with
        | zero => exact hnm
        | succ m =>
          have hm : m < rest.length := Nat.lt_of_succ_lt_succ hj
          exact hget m hm

theorem buildIndex_eq_fit (df : PyDataFrame) (featureColumns : List String)
    (M : List (List (Option ℚ))) (h : dfSelect df featureColumns = Except.ok M) :
    buildIndex df featureColumns =
      match scalerFit (nanToNum M) featureColumns.length with
      | Except.error e => Except.error e
      | Except.ok (means, vars) => Except.ok ⟨nanToNum M, means, vars,
          df.ids.enum.map (fun p => (p.2, p.1)), df.ids.enum⟩ := by
  unfold buildIndex
  rw [h]

theorem getD_map_of_lt {α β : Type} (f : α → β) (da : α) (db : β) :
    ∀ (l : List α) (i : Nat), i < l.length → (l.map f).getD i db = f (l.getD i da) := by
  intro l
  induction l with
  | nil => intro i hi; exact absurd hi (Nat.not_lt_zero i)
  | cons x xs ih =>
    intro i hi
    cases i with
    | zero => rfl
    | succ m => exact ih m (Nat.lt_of_succ_lt_succ hi)

theorem getD_range_of_lt (n i : Nat) (h : i < n) : (List.range n).getD i 0 = i := by
  rw [List.getD_eq_getElem?_getD, List.getElem?_eq_getElem (by simpa using h)]
  simp [List.getElem_range]

/-- C5 (amended): `build_index` fails when a named feature column is absent
from the table (pandas `KeyError`, the spec's `SchemaError`; this check
comes first), fails when the table has zero rows and all columns are
present (sklearn `ValueError`, the spec's `EmptyCatalogError`), and — with
at least one feature column named — otherwise succeeds, with every missing
value imputed as 0.0 BEFORE standardization and with the persisted
statistics equal to each imputed column's own mean and population variance.
(As stated the claim fails for an empty feature-column list on a nonempty
table: sklearn also rejects 0-feature arrays, so "otherwise succeeds" is
wrong there.) -/
theorem buildIndex_spec (df : PyDataFrame) (featureColumns : List String) :
    ((∃ c ∈ featureColumns, findCol df.cols c = none) →
      buildIndex df featureColumns = Except.error "KeyError") ∧
    ((∀ c ∈ featureColumns, findCol df.cols c ≠ none) → df.ids.length = 0 →
      buildIndex df featureColumns = Except.error "ValueError: 0 samples") ∧
    ((∀ c ∈ featureColumns, findCol df.cols c ≠ none) → 0 < df.ids.length →
      featureColumns ≠ [] →
      ∃ b, buildIndex df featureColumns = Except.ok b ∧
        b.imputedMatrix.length = df.ids.length ∧
        (∀ i, i < df.ids.length → ∀ j, (hj : j < featureColumns.length) →
          ∃ colv, findCol df.cols (featureColumns.get ⟨j, hj⟩) = some colv ∧
            (b.imputedMatrix.getD i []).getD j 0 = (colv.getD i none).getD 0) ∧
        b.scalerMean = (List.range featureColumns.length).map
          (fun j => colMean (matrixCol b.imputedMatrix j)) ∧
        b.scalerVar = (List.range featureColumns.length).map
          (fun j => colVar (matrixCol b.imputedMatrix j))) := by
  refine ⟨?_, ?_, ?_⟩
  · intro hmissing
    have hsel := selectCols_none_of_missing df.cols featureColumns hmissing
    unfold buildIndex dfSelect
    rw [hsel]
  · intro hpresent hzero
    rcases selectCols_some_of_present df.cols featureColumns hpresent with ⟨colVals, hsel⟩
    have hselM : dfSelect df featureColumns = Except.ok ((List.range df.ids.length).map
        (fun i => colVals.map (fun c => c.getD i none))) := by
      unfold dfSelect
      rw [hsel]
    have hlen : (nanToNum ((List.range df.ids.length).map
        (fun i => colVals.map (fun c => c.getD i none)))).length = 0 := by
      simp [nanToNum, hzero]
    rw [buildIndex_eq_fit df featureColumns _ hselM]
    unfold scalerFit
    rw [if_pos hlen]
  · intro hpresent hpos hne
    rcases selectCols_some_of_present df.cols featureColumns hpresent with ⟨colVals, hsel⟩
    rcases selectCols_some_spec df.cols featureColumns colVals hsel with ⟨hclen, hcget⟩
    have hselM : dfSelect df featureColumns = Except.ok ((List.range df.ids.length).map
        (fun i => colVals.map (fun c => c.getD i none))) := by
      unfold dfSelect
      rw [hsel]
    have hrows : (nanToNum ((List.range df.ids.length).map
        (fun i => colVals.map (fun c => c.getD i none)))).length = df.ids.length := by
      simp [nanToNum]
    have hfit : scalerFit (nanToNum ((List.range df.ids.length).map
        (fun i => colVals.map (fun c => c.getD i none)))) featureColumns.length =
        Except.ok ((List.range featureColumns.length).map (fun j => colMean
          (matrixCol (nanToNum ((List.range df.ids.length).map
            (fun i => colVals.map (fun c => c.getD i none)))) j)),
          (List.range featureColumns.length).map (fun j => colVar
            (matrixCol (nanToNum ((List.range df.ids.length).map
              (fun i => colVals.map (fun c => c.getD i none)))) j))) := by
      unfold scalerFit
      rw [if_neg (by rw [hrows]; omega), if_neg (by simpa using hne)]
    have hbuild : buildIndex df featureColumns = Except.ok
        ⟨nanToNum ((List.range df.ids.length).map
            (fun i => colVals.map (fun c => c.getD i none))),
          (List.range featureColumns.length).map (fun j => colMean
            (matrixCol (nanToNum ((List.range df.ids.length).map
              (fun i => colVals.map (fun c => c.getD i none)))) j)),
          (List.range featureColumns.length).map (fun j => colVar
            (matrixCol (nanToNum ((List.range df.ids.length).map
              (fun i => colVals.map (fun c => c.getD i none)))) j)),
          df.ids.enum.map (fun p => (p.2, p.1)), df.ids.enum⟩ := by
      rw [buildIndex_eq_fit df featureColumns _ hselM, hfit]
    refine ⟨_, hbuild, hrows, ?_, rfl, rfl⟩
    intro i hi j hj
    refine ⟨colVals.getD j [], hcget j hj, ?_⟩
    have hjc : j < colVals.length := by rw [hclen]; exact hj
    have hstep1 : (nanToNum ((List.range df.ids.length).map
        (fun i => colVals.map (fun c => c.getD i none)))).getD i [] =
        (((List.range df.ids.length).map
          (fun i => colVals.map (fun c => c.getD i none))).getD i []).map
          (fun v => v.getD 0) := by
      unfold nanToNum
      exact getD_map_of_lt _ [] [] _ i (by simpa using hi)
    have hstep2 : ((List.range df.ids.length).map
        (fun i => colVals.map (fun c => c.getD i none))).getD i [] =
        colVals.map (fun c => c.getD i none) := by
      have := getD_map_of_lt (fun i => colVals.map (fun c => c.getD i none)) 0 []
        (List.range df.ids.length) i (by simpa using hi)
      rw [this, getD_range_of_lt df.ids.length i hi]
    rw [hstep1, hstep2]
    rw [getD_map_of_lt (fun v : Option ℚ => v.getD 0) none 0 _ j (by simpa using hjc)]
    rw [getD_map_of_lt (fun c : List (Option ℚ) => c.getD i none) [] none _ j hjc]

/-- Data frame for the C5 witness: four rows, one feature column "x" with a
missing value in row 1 and values giving mean 4 and variance 16. -/
def wBuildDf : PyDataFrame :=
  ⟨["t1", "t2", "t3", "t4"], [("x", [some 0, none, some 8, some 8])]⟩

/-- Witness for `buildIndex_spec`, exercising the success branch on
`wBuildDf` (all columns present, four rows, one feature column). -/
theorem buildIndex_spec_witness :
    (∀ c ∈ ["x"], findCol wBuildDf.cols c ≠ none) ∧
    0 < wBuildDf.ids.length ∧
    (["x"] : List String) ≠ [] ∧
    (∃ b, buildIndex wBuildDf ["x"] = Except.ok b ∧
      b.imputedMatrix.length = wBuildDf.ids.length ∧
      (∀ i, i < wBuildDf.ids.length → ∀ j, (hj : j < (["x"] : List String).length) →
        ∃ colv, findCol wBuildDf.cols ((["x"] : List String).get ⟨j, hj⟩) = some colv ∧
          (b.imputedMatrix.getD i []).getD j 0 = (colv.getD i none).getD 0) ∧
      b.scalerMean = (List.range (["x"] : List String).length).map
        (fun j => colMean (matrixCol b.imputedMatrix j)) ∧
      b.scalerVar = (List.range (["x"] : List String).length).map
        (fun j => colVar (matrixCol b.imputedMatrix j))) :=
  ⟨by decide, by decide, by decide,
    (buildIndex_spec wBuildDf ["x"]).2.2 (by decide) (by decide) (by decide)⟩

/-- Data frame with one row and one (present) column. -/
def oneRowDf : PyDataFrame := ⟨["t1"], [("x", [some 1])]⟩

/-- C5 counterexample: with a nonempty table and an EMPTY feature-column
list, no named column is absent and the row count is nonzero, yet
`build_index` still fails — sklearn rejects the resulting 0-feature array —
contradicting the claim's "otherwise succeeds". -/
theorem buildIndex_empty_schema_cex :
    oneRowDf.ids.length = 1 ∧
    buildIndex oneRowDf [] = Except.error "ValueError: 0 features" :=
  ⟨rfl, rfl⟩

/-! ### Claim C3 -/

/-- Models `np.median`: sort ascending; the middle element for odd length,
the average of the two middle elements for even length.  (numpy returns NaN
for an empty input; the catalogs in scope are nonempty.) -/
def npMedian (xs : List ℚ) : ℚ :=
  let s := List.insertionSort (· ≤ ·) xs
  if xs.length % 2 = 1 then s.getD (xs.length / 2) 0
  else (s.getD (xs.length / 2 - 1) 0 + s.getD (xs.length / 2) 0) / 2

/-- Models the query-construction loop of
`get_recommendations_by_features`: named features take the caller's values,
`tempo_normalized` is `tempo / 250.0`, and every OTHER feature column is
filled with `np.median(self.feature_matrix[:, i])` — the median of that
column of the STORED, ALREADY-STANDARDIZED matrix loaded from disk (not of
the raw pre-normalization feature table). -/
def featureQueryRaw (featureNames : List String)
    (dance energy valence tempo : ℚ) (storedMatrix : List (List ℚ)) : List ℚ :=
  featureNames.enum.map (fun p =>
    if p.2 = "danceability" then dance
    else if p.2 = "energy" then energy
    else if p.2 = "valence" then valence
    else if p.2 = "tempo" then tempo
    else if p.2 = "tempo_normalized" then tempo / 250
    else npMedian (matrixCol storedMatrix p.1))

/-- The dictionary appended by `get_recommendations_by_features` (it carries
no popularity or release year, unlike the seed-based path). -/
structure FeatureRecEntry where
  id : String
  name : String
  artists : String
  similarityScore : ℚ
  danceability : ℚ
  energy : ℚ
  valence : ℚ
  tempo : ℚ
deriving DecidableEq

def mkFeatureRecEntry (t : Track) (score : ℚ) : FeatureRecEntry :=
  ⟨t.id, t.name, t.artists, score, t.danceability, t.energy, t.valence, t.tempo⟩

/-- Models `MusicRecommender.get_recommendations_by_features`: build the
synthetic query from the stored normalized matrix, standardize it (again)
with the persisted scaler mean/scale, apply the weights, and rank with NO
exclusions and `k = n_recommendations` (not clamped here — slicing clamps). -/
def getRecommendationsByFeatures (weights : List (String × ℚ))
    (sim : List ℚ → List ℚ → ℚ) (featureNames : List String)
    (storedMatrix weightedMatrix : List (List ℚ)) (df : List Track)
    (mean scale : List ℚ) (dance energy valence tempo : ℚ) (n : Nat) :
    List FeatureRecEntry :=
  let rawQuery := featureQueryRaw featureNames dance energy valence tempo storedMatrix
  let query := standardizeVec rawQuery mean scale
  let weightedQuery := applyWeightsVec weights query featureNames
  let cands := getTopKSimilar (computeSimilarity sim weightedQuery weightedMatrix)
    (Int.ofNat n) []
  cands.map (fun p => mkFeatureRecEntry (df.getD p.1 defaultTrack) p.2)

/-- Raw (pre-normalization) feature table for the C3 counterexample: one
feature column with values [0, 0, 8, 8], whose fitted statistics are mean 4
and variance 16 (scale 4). -/
def c3rawMatrix : List (List ℚ) := [[0], [0], [8], [8]]

/-- C3 counterexample: for the single feature column "acousticness" (not one
of the named features) with raw values [0, 0, 8, 8], the persisted
statistics are mean 4 and scale 4 and the stored normalized matrix is
[[-1], [-1], [1], [1]].  The code fills the column with the median of the
NORMALIZED column (0) and standardizes it again, giving query entry
(0 - 4) / 4 = -1; the claim's "catalog-wide median of raw (pre-normalization)
values" (median 4) would give (4 - 4) / 4 = 0.  The two disagree. -/
theorem featureQuery_median_cex :
    colMean (matrixCol c3rawMatrix 0) = 4 ∧
    colVar (matrixCol c3rawMatrix 0) = 16 ∧
    ScaleOk [16] [4] ∧
    normalizeWith c3rawMatrix [4] [4] = [[-1], [-1], [1], [1]] ∧
    standardizeVec (featureQueryRaw ["acousticness"] 0 0 0 0 [[-1], [-1], [1], [1]]) [4] [4]
      = [-1] ∧
    standardizeVec (featureQueryRaw ["acousticness"] 0 0 0 0 c3rawMatrix) [4] [4]
      = [0] ∧
    ([(-1 : ℚ)] : List ℚ) ≠ [0] := by
  have hmean : colMean [(0 : ℚ), 0, 8, 8] = 4 := by
    unfold colMean
    norm_num [List.sum_cons, List.sum_nil]
  have hvar : colVar [(0 : ℚ), 0, 8, 8] = 16 := by
    unfold colVar
    rw [hmean]
    norm_num [List.sum_cons, List.sum_nil]
  have hcol : matrixCol c3rawMatrix 0 = [0, 0, 8, 8] := rfl
  have hmedN : npMedian [(-1 : ℚ), -1, 1, 1] = 0 := by
    show ((-1 : ℚ) + 1) / 2 = 0
    norm_num
  have hmedR : npMedian [(0 : ℚ), 0, 8, 8] = 4 := by
    show ((0 : ℚ) + 8) / 2 = 4
    norm_num
  refine ⟨by rw [hcol]; exact hmean, by rw [hcol]; exact hvar, ⟨rfl, ?_⟩, ?_, ?_, ?_, by decide⟩
  · intro j hj
    have hj0 : j = 0 := Nat.lt_one_iff.1 (by simpa using hj)
    subst hj0
    constructor
    · show (0 : ℚ) ≤ 4
      norm_num
    · show (4 : ℚ) ^ 2 = if (16 : ℚ) = 0 then 1 else 16
      norm_num
  · show [[((0 : ℚ) - 4) / 4], [((0 : ℚ) - 4) / 4], [((8 : ℚ) - 4) / 4], [((8 : ℚ) - 4) / 4]] =
      [[-1], [-1], [1], [1]]
    norm_num
  · show [(npMedian [(-1 : ℚ), -1, 1, 1] - 4) / 4] = [-1]
    rw [hmedN]
    norm_num
  · show [(npMedian [(0 : ℚ), 0, 8, 8] - 4) / 4] = [0]
    rw [hmedR]
    norm_num

theorem getD_zipWith_of_lt {α β γ : Type} (f : α → β → γ) (da : α) (db : β) (dc : γ) :
    ∀ (a : List α) (b : List β) (i : Nat), i < a.length → i < b.length →
      (List.zipWith f a b).getD i dc = f (a.getD i da) (b.getD i db) := by
  intro a
  induction a with
  | nil => intro b i hi _; exact absurd hi (Nat.not_lt_zero i)
  | cons x xs ih =>
    intro b i hi hib
    cases b with
    | nil => exact absurd hib (Nat.not_lt_zero i)
    | cons y ys =>
      cases i with
      | zero => rfl
      | succ m => exact ih ys m (Nat.lt_of_succ_lt_succ hi) (Nat.lt_of_succ_lt_succ hib)

theorem getD_zip_of_lt {α β : Type} (da : α) (db : β) :
    ∀ (a : List α) (b : List β) (i : Nat), i < a.length → i < b.length →
      (a.zip b).getD i (da, db) = (a.getD i da, b.getD i db) := by
  intro a
  induction a with
  | nil => intro b i hi _; exact absurd hi (Nat.not_lt_zero i)
  | cons x xs ih =>
    intro b i hi hib
    cases b with
    | nil => exact absurd hib (Nat.not_lt_zero i)
    | cons y ys =>
      cases i with
      | zero => rfl
      | succ m => exact ih ys m (Nat.lt_of_succ_lt_succ hi) (Nat.lt_of_succ_lt_succ hib)

theorem getD_enumFrom_of_lt {α : Type} (d : α) :
    ∀ (l : List α) (n i : Nat), i < l.length →
      (l.enumFrom n).getD i (0, d) = (n + i, l.getD i d) := by
  intro l
  induction l with
  | nil => intro n i hi; exact absurd hi (Nat.not_lt_zero i)
  | cons x xs ih =>
    intro n i hi
    cases i with
    | zero => simp [List.enumFrom]
    | succ m =>
      have hrec := ih (n + 1) m (Nat.lt_of_succ_lt_succ hi)
      have harith : n + 1 + m = n + (m + 1) := by omega
      show (List.enumFrom (n + 1) xs).getD m (0, d) = (n + (m + 1), xs.getD m d)
      rw [hrec, harith]

theorem getD_enum_of_lt {α : Type} (d : α) (l : List α) (i : Nat) (hi : i < l.length) :
    l.enum.getD i (0, d) = (i, l.getD i d) := by
  have h := getD_enumFrom_of_lt d l 0 i hi
  simpa [List.enum] using h

theorem featureQueryRaw_length (featureNames : List String)
    (dance energy valence tempo : ℚ) (storedMatrix : List (List ℚ)) :
    (featureQueryRaw featureNames dance energy valence tempo storedMatrix).length =
      featureNames.length := by
  simp [featureQueryRaw, List.enum_length]

theorem featureQueryRaw_getD (featureNames : List String)
    (dance energy valence tempo : ℚ) (storedMatrix : List (List ℚ)) (i : Nat)
    (hi : i < featureNames.length) :
    (featureQueryRaw featureNames dance energy valence tempo storedMatrix).getD i 0 =
      (if featureNames.getD i "" = "danceability" then dance
       else if featureNames.getD i "" = "energy" then energy
       else if featureNames.getD i "" = "valence" then valence
       else if featureNames.getD i "" = "tempo" then tempo
       else if featureNames.getD i "" = "tempo_normalized" then tempo / 250
       else npMedian (matrixCol storedMatrix i)) := by
  unfold featureQueryRaw
  rw [getD_map_of_lt _ (0, "") 0 _ i (by simpa [List.enum_length] using hi)]
  rw [getD_enum_of_lt "" featureNames i hi]

theorem standardizeVec_length (v mean scale : List ℚ) :
    (standardizeVec v mean scale).length = min v.length (min mean.length scale.length) := by
  simp [standardizeVec]

theorem standardizeVec_getD (v mean scale : List ℚ) (i : Nat)
    (hv : i < v.length) (hm : i < mean.length) (hs : i < scale.length) :
    (standardizeVec v mean scale).getD i 0 =
      (v.getD i 0 - mean.getD i 0) / scale.getD i 0 := by
  unfold standardizeVec
  have hzl : i < (v.zip (mean.zip scale)).length := by
    rw [List.length_zip, List.length_zip]
    omega
  rw [getD_map_of_lt _ (0, (0, 0)) 0 _ i hzl]
  rw [getD_zip_of_lt 0 ((0 : ℚ), (0 : ℚ)) v (mean.zip scale) i hv
    (by rw [List.length_zip]; omega)]
  rw [getD_zip_of_lt (0 : ℚ) (0 : ℚ) mean scale i hm hs]

theorem applyWeightsVec_getD (weights : List (String × ℚ)) (v : List ℚ)
    (featureNames : List String) (i : Nat)
    (hv : i < v.length) (hn : i < featureNames.length) :
    (applyWeightsVec weights v featureNames).getD i 0 =
      v.getD i 0 * lookupWeight weights (featureNames.getD i "") := by
  unfold applyWeightsVec
  rw [getD_zipWith_of_lt _ 0 1 0 v _ i hv (by simpa using hn)]
  rw [getD_map_of_lt (lookupWeight weights) "" 1 featureNames i hn]

/-- C3 (amended): the synthetic query vector of
`get_recommendations_by_features` assigns the caller's values to
danceability, energy, valence and tempo, sets `tempo_normalized` to
`tempo / 250`, and fills every OTHER feature column with the median of that
column of the STORED NORMALIZED matrix (post-standardization values, not the
claim's raw pre-normalization values); the whole vector — medians included,
which are thereby standardized a second time — is then standardized with the
persisted per-column mean/scale, and weighted after standardization. -/
theorem featureQuery_entry (weights : List (String × ℚ))
    (featureNames : List String) (dance energy valence tempo : ℚ)
    (storedMatrix : List (List ℚ)) (mean scale : List ℚ) (i : Nat)
    (hm : featureNames.length ≤ mean.length)
    (hs : featureNames.length ≤ scale.length)
    (hi : i < featureNames.length) :
    (applyWeightsVec weights
        (standardizeVec (featureQueryRaw featureNames dance energy valence tempo storedMatrix)
          mean scale) featureNames).getD i 0 =
      ((if featureNames.getD i "" = "danceability" then dance
        else if featureNames.getD i "" = "energy" then energy
        else if featureNames.getD i "" = "valence" then valence
        else if featureNames.getD i "" = "tempo" then tempo
        else if featureNames.getD i "" = "tempo_normalized" then tempo / 250
        else npMedian (matrixCol storedMatrix i)) - mean.getD i 0) / scale.getD i 0 *
        lookupWeight weights (featureNames.getD i "") := by
  have hq : i < (featureQueryRaw featureNames dance energy valence tempo storedMatrix).length := by
    rw [featureQueryRaw_length]
    exact hi
  have hst : i < (standardizeVec
      (featureQueryRaw featureNames dance energy valence tempo storedMatrix)
      mean scale).length := by
    rw [standardizeVec_length, featureQueryRaw_length]
    omega
  rw [applyWeightsVec_getD weights _ featureNames i hst hi]
  rw [standardizeVec_getD _ mean scale i hq (by omega) (by omega)]
  rw [featureQueryRaw_getD featureNames dance energy valence tempo storedMatrix i hi]

/-- Witness for `featureQuery_entry` at the counterexample instance: the
weighted query entry for "acousticness" is `(0 - 4) / 4 * (3/2) = -3/2`. -/
theorem featureQuery_entry_witness :
    (["acousticness"] : List String).length ≤ ([(4 : ℚ)] : List ℚ).length ∧
    (0 : Nat) < (["acousticness"] : List String).length ∧
    (applyWeightsVec getDefaultWeights
        (standardizeVec (featureQueryRaw ["acousticness"] 0 0 0 0 [[-1], [-1], [1], [1]])
          [4] [4]) ["acousticness"]).getD 0 0 =
      ((if (["acousticness"] : List String).getD 0 "" = "danceability" then (0 : ℚ)
        else if (["acousticness"] : List String).getD 0 "" = "energy" then 0
        else if (["acousticness"] : List String).getD 0 "" = "valence" then 0
        else if (["acousticness"] : List String).getD 0 "" = "tempo" then 0
        else if (["acousticness"] : List String).getD 0 "" = "tempo_normalized" then 0 / 250
        else npMedian (matrixCol [[-1], [-1], [1], [1]] 0)) - ([(4 : ℚ)] : List ℚ).getD 0 0) /
        ([(4 : ℚ)] : List ℚ).getD 0 0 *
        lookupWeight getDefaultWeights ((["acousticness"] : List String).getD 0 "") :=
  ⟨by decide, by decide,
    featureQuery_entry getDefaultWeights ["acousticness"] 0 0 0 0 [[-1], [-1], [1], [1]]
      [4] [4] 0 (by decide) (by decide) (by decide)⟩

end MusicRec
